import Mathlib

set_option maxRecDepth 100000

/-!
Verification of the alignment-research-dataset specification against the code.

The embedding covers:
* the MD5 content hash used for entry identities (pinned by the golden test
  fixture in `tests/align_data/common/test_alignment_dataset.py`);
* `DataEntry` with `add_id` / `_verify_id` (the file
  `align_data/common/alignment_dataset.py` is not in the source tree, so these
  are modelled from the spec, with behaviour pinned by the repository's tests
  where the tests decide it);
* the dual-file writer sessions (modelled from the spec);
* `WordpressBlog.items_list` and `WordpressBlog.fetch_entries` from
  `align_data/blogs/wp_blog.py`.
-/

/-! ## MD5 over byte lists (each byte a `Nat < 256`), words as `Nat` mod 2^32 -/

def md5K : List Nat :=
  [0xd76aa478, 0xe8c7b756, 0x242070db, 0xc1bdceee,
   0xf57c0faf, 0x4787c62a, 0xa8304613, 0xfd469501,
   0x698098d8, 0x8b44f7af, 0xffff5bb1, 0x895cd7be,
   0x6b901122, 0xfd987193, 0xa679438e, 0x49b40821,
   0xf61e2562, 0xc040b340, 0x265e5a51, 0xe9b6c7aa,
   0xd62f105d, 0x02441453, 0xd8a1e681, 0xe7d3fbc8,
   0x21e1cde6, 0xc33707d6, 0xf4d50d87, 0x455a14ed,
   0xa9e3e905, 0xfcefa3f8, 0x676f02d9, 0x8d2a4c8a,
   0xfffa3942, 0x8771f681, 0x6d9d6122, 0xfde5380c,
   0xa4beea44, 0x4bdecfa9, 0xf6bb4b60, 0xbebfbc70,
   0x289b7ec6, 0xeaa127fa, 0xd4ef3085, 0x04881d05,
   0xd9d4d039, 0xe6db99e5, 0x1fa27cf8, 0xc4ac5665,
   0xf4292244, 0x432aff97, 0xab9423a7, 0xfc93a039,
   0x655b59c3, 0x8f0ccc92, 0xffeff47d, 0x85845dd1,
   0x6fa87e4f, 0xfe2ce6e0, 0xa3014314, 0x4e0811a1,
   0xf7537e82, 0xbd3af235, 0x2ad7d2bb, 0xeb86d391]

def md5S : List Nat :=
  [7, 12, 17, 22, 7, 12, 17, 22, 7, 12, 17, 22, 7, 12, 17, 22,
   5, 9, 14, 20, 5, 9, 14, 20, 5, 9, 14, 20, 5, 9, 14, 20,
   4, 11, 16, 23, 4, 11, 16, 23, 4, 11, 16, 23, 4, 11, 16, 23,
   6, 10, 15, 21, 6, 10, 15, 21, 6, 10, 15, 21, 6, 10, 15, 21]

def rotl32 (x s : Nat) : Nat :=
  (x * 2 ^ s) % 4294967296 + x / 2 ^ (32 - s)

def md5F (i b c d : Nat) : Nat :=
  if i < 16 then (b &&& c) ||| ((b ^^^ 4294967295) &&& d)
  else if i < 32 then (d &&& b) ||| ((d ^^^ 4294967295) &&& c)
  else if i < 48 then b ^^^ c ^^^ d
  else c ^^^ (b ||| (d ^^^ 4294967295))

def md5G (i : Nat) : Nat :=
  if i < 16 then i
  else if i < 32 then (5 * i + 1) % 16
  else if i < 48 then (3 * i + 5) % 16
  else (7 * i) % 16

def md5Round (m : List Nat) (st : Nat × Nat × Nat × Nat) (i : Nat) :
    Nat × Nat × Nat × Nat :=
  let a := st.1
  let b := st.2.1
  let c := st.2.2.1
  let d := st.2.2.2
  let f := (md5F i b c d + a + md5K.getD i 0 + m.getD (md5G i) 0) % 4294967296
  (d, (b + rotl32 f (md5S.getD i 0)) % 4294967296, b, c)

/-- Convert a byte list to little-endian 32-bit words; `acc` accumulates the
current word and `k` counts its bytes. -/
def leWordsAux : List Nat → Nat → Nat → List Nat
  | [], _, _ => []
  | b :: rest, acc, k =>
    if k == 3 then (acc + b * 16777216) :: leWordsAux rest 0 0
    else leWordsAux rest (acc + b * 256 ^ k) (k + 1)

/-- Split a byte list into 64-byte blocks; `acc` holds the current block
reversed and `k` counts its bytes. -/
def md5BlocksAux : List Nat → List Nat → Nat → List (List Nat)
  | [], acc, _ => if acc.isEmpty then [] else [acc.reverse]
  | b :: rest, acc, k =>
    if k == 63 then (b :: acc).reverse :: md5BlocksAux rest [] 0
    else md5BlocksAux rest (b :: acc) (k + 1)

def leBytes4 (n : Nat) : List Nat :=
  [n % 256, n / 256 % 256, n / 65536 % 256, n / 16777216 % 256]

def leBytes8 (n : Nat) : List Nat :=
  leBytes4 (n % 4294967296) ++ leBytes4 (n / 4294967296 % 4294967296)

def md5Pad (msg : List Nat) : List Nat :=
  msg ++ [128] ++ List.replicate ((119 - msg.length % 64) % 64) 0
      ++ leBytes8 (msg.length * 8)

def md5Block (st : Nat × Nat × Nat × Nat) (block : List Nat) :
    Nat × Nat × Nat × Nat :=
  let m := leWordsAux block 0 0
  let r := (List.range 64).foldl (md5Round m) st
  ((st.1 + r.1) % 4294967296, (st.2.1 + r.2.1) % 4294967296,
   (st.2.2.1 + r.2.2.1) % 4294967296, (st.2.2.2 + r.2.2.2) % 4294967296)

def md5Digest (msg : List Nat) : List Nat :=
  let st := (md5BlocksAux (md5Pad msg) [] 0).foldl md5Block
    (1732584193, 4023233417, 2562383102, 271733878)
  leBytes4 st.1 ++ leBytes4 st.2.1 ++ leBytes4 st.2.2.1 ++ leBytes4 st.2.2.2

def hexDigit (n : Nat) : Char :=
  if n < 10 then Char.ofNat (48 + n) else Char.ofNat (87 + n)

def byteHex (b : Nat) : List Char :=
  [hexDigit (b / 16), hexDigit (b % 16)]

def md5HexBytes (msg : List Nat) : String :=
  String.mk ((md5Digest msg).foldr (fun b acc => byteHex b ++ acc) [])

/-- UTF-8 encoding of a unicode scalar value as a byte list. -/
def utf8EncodeNat (n : Nat) : List Nat :=
  if n < 128 then [n]
  else if n < 2048 then [192 + n / 64, 128 + n % 64]
  else if n < 65536 then [224 + n / 4096, 128 + n / 64 % 64, 128 + n % 64]
  else [240 + n / 262144, 128 + n / 4096 % 64, 128 + n / 64 % 64, 128 + n % 64]

def strBytes (s : String) : List Nat :=
  s.data.foldr (fun c acc => utf8EncodeNat c.toNat ++ acc) []

/-- MD5 hex digest of the UTF-8 encoding of a string, as
`hashlib.md5(text.encode()).hexdigest()` computes it. -/
def md5Hex (s : String) : String :=
  md5HexBytes (strBytes s)

example : md5Hex "once upon a time" = "ea36fcd25d96821e1455adec6e5d9a3a" := by decide

/-! ## DataEntry and its identity operations -/

/-- Modelled from the spec: the `DataEntry` record of the missing
`align_data/common/alignment_dataset.py`, a fixed-shape mapping with optional
values; `none` models both an absent key and an explicit Python `None`.
`paged_url` is the extra key used by the blog scraper. -/
structure DataEntry where
  date_published : Option String := none
  source : Option String := none
  title : Option String := none
  url : Option String := none
  id : Option String := none
  text : Option String := none
  paged_url : Option String := none
deriving Repr, DecidableEq

/-- Modelled from the spec: `add_id()` of the missing
`align_data/common/alignment_dataset.py`. It requires non-empty text (missing,
`None` and empty all fail with the "missing text" assertion) and stores the
content hash of the text as the id. The hash is pinned to plain MD5 of the
UTF-8 text by the repository's golden test fixture
(`test_data_entry_id_from_text`); no lowercase normalisation is applied, as
pinned by `test_data_entry_verify_id_fails`, whose case
`id = md5("once upon a time")`, `text = "Once upon a time"` must be rejected. -/
def addId (e : DataEntry) : Except String DataEntry :=
  match e.text with
  | none => .error "Entry is missing text"
  | some t =>
    if t = "" then .error "Entry is missing text"
    else .ok { e with id := some (md5Hex t) }

/-- Modelled from the spec: `_verify_id()` of the missing
`align_data/common/alignment_dataset.py`. It requires both id and text to be
present, recomputes the hash of the text and fails on mismatch, with the
messages pinned by `test_data_entry_verify_id_fails`. -/
def verifyId (e : DataEntry) : Except String Unit :=
  match e.id with
  | none => .error "Entry is missing id"
  | some i =>
    match e.text with
    | none => .error "Entry is missing text"
    | some t =>
      if t = "" then .error "Entry is missing text"
      else if md5Hex t = i then .ok () else .error "Entry id does not match text"

/-! ## The dual-file writer -/

/-- Modelled from the spec: the contents of the paired output files
`{name}.jsonl` (one entry per line) and `{name}.txt` (lines of text). -/
structure FilePair where
  jsonl : List DataEntry := []
  txt : List String := []
deriving Repr, DecidableEq

/-- Modelled from the spec: the writer's single callable, which serialises an
entry as one jsonl record and as a three-line text block (title, blank line,
body), appending to both files. -/
def writeEntry (fp : FilePair) (e : DataEntry) : FilePair :=
  { jsonl := fp.jsonl ++ [e],
    txt := fp.txt ++ [e.title.getD "", "", e.text.getD ""] }

/-- Modelled from the spec: one writer session over the file pair, opened in
truncate mode when `overwrite` is true and in append mode otherwise, writing
the given entries in order. -/
def writerSession (overwrite : Bool) (fp : FilePair) (entries : List DataEntry) :
    FilePair :=
  entries.foldl writeEntry (if overwrite then {} else fp)

/-! ## The WordpressBlog scraper (`align_data/blogs/wp_blog.py`) -/

/-- One feed item as `fetch_entries` reads it: its `title` and
`content[0].value` (the raw HTML body). -/
structure FeedItem where
  title : String
  contentValue : String
deriving Repr, DecidableEq

/-- The `feed` metadata of a parsed page; `title = none` models a feed dict
without a `title` key. -/
structure Feed where
  title : Option String := none
deriving Repr, DecidableEq

/-- One page as `feedparser.parse` returns it; `feed = none` models a parse
result without a `feed` key. -/
structure ParsedPage where
  feed : Option Feed := none
  entries : List FeedItem := []
deriving Repr, DecidableEq

/-- A configured `WordpressBlog` after `setup()`: `clean` stands for the
external `utils.HtmlCleaner(strip).clean` and `name` for the external
`utils.url_to_filename(url)` (the filesystem-safe slug of the URL), both out
of scope per the spec; `max_pages` defaults to 2000 as in the dataclass. -/
structure WordpressBlog where
  url : String
  clean : String → String
  name : String
  max_pages : Nat := 2000

def WordpressBlog.feedUrl (b : WordpressBlog) : String :=
  b.url ++ "/feed"

/-- Embedding of `WordpressBlog.items_list`:
`[f"{self.feed_url}?paged={page + 1}" for page in range(0, self.max_pages)]`. -/
def WordpressBlog.itemsList (b : WordpressBlog) : List String :=
  (List.range b.max_pages).map (fun page => b.feedUrl ++ "?paged=" ++ toString (page + 1))

/-- Characters of a string before its first newline. -/
def firstLineAux : List Char → List Char
  | [] => []
  | c :: cs => if c = '\n' then [] else c :: firstLineAux cs

/-- Embedding of Python's `text.split("\n")[0]`: the first line of the text
(the whole text when it has no newline). -/
def firstLine (s : String) : String :=
  String.mk (firstLineAux s.data)

/-- The entry dict `fetch_entries` builds for one item, before `add_id`. -/
def wpRawEntry (b : WordpressBlog) (pagedUrl : String) (item : FeedItem) :
    DataEntry :=
  let contentText := b.clean item.contentValue
  let text := item.title ++ "\n\n" ++ contentText
  { text := some text,
    url := some b.url,
    title := some (firstLine text),
    source := some b.name,
    date_published := some "n/a",
    paged_url := some pagedUrl }

/-- The entry `fetch_entries` yields for one item: the raw entry after
`new_entry.add_id()`. The error branch is unreachable because the text always
contains the title/body separator. -/
def wpEntry (b : WordpressBlog) (pagedUrl : String) (item : FeedItem) :
    DataEntry :=
  match addId (wpRawEntry b pagedUrl item) with
  | .ok e => e
  | .error _ => wpRawEntry b pagedUrl item

/-- Embedding of the loop of `WordpressBlog.fetch_entries` over the pages
still to process: `parse` stands for `feedparser.parse`, `pagedUrls` for the
sequence `unprocessed_items()` iterates, and `lastTitle` for the loop state.
The loop breaks (yielding nothing further) when the parse result has no feed,
the feed has no title, or the title equals `lastTitle`; otherwise it yields
one entry per item and continues with the new title. -/
def fetchEntriesFrom (b : WordpressBlog) (parse : String → ParsedPage) :
    List String → String → List DataEntry
  | [], _ => []
  | pagedUrl :: rest, lastTitle =>
    let d := parse pagedUrl
    match d.feed with
    | none => []
    | some f =>
      match f.title with
      | none => []
      | some t =>
        if t = lastTitle then []
        else d.entries.map (wpEntry b pagedUrl) ++ fetchEntriesFrom b parse rest t

/-- Embedding of `WordpressBlog.fetch_entries`: the loop starts with
`last_title = ""`. -/
def fetchEntries (b : WordpressBlog) (parse : String → ParsedPage)
    (pagedUrls : List String) : List DataEntry :=
  fetchEntriesFrom b parse pagedUrls ""

/-! ## Example inputs used by witnesses -/

def wbExample : WordpressBlog :=
  { url := "https://blog.example.com", clean := fun s => s,
    name := "blog.example.com" }

def itemExample : FeedItem :=
  { title := "Post one", contentValue := "<p>body one</p>" }

def item2Example : FeedItem :=
  { title := "Post two", contentValue := "body two" }

def item3Example : FeedItem :=
  { title := "Post three", contentValue := "body three" }

def parseExample : String → ParsedPage := fun u =>
  if u = "p1" then
    { feed := some { title := some "Title one" }, entries := [itemExample] }
  else if u = "p2" then
    { feed := some { title := some "Title two" }, entries := [item2Example] }
  else if u = "p3" then
    { feed := some { title := some "Title two" }, entries := [item3Example] }
  else if u = "empty" then
    { feed := some { title := some "Fresh title" }, entries := [] }
  else if u = "emptytitle" then
    { feed := some { title := some "" }, entries := [itemExample] }
  else if u = "notitle" then
    { feed := some {} }
  else
    { feed := none }

def entryExample : DataEntry :=
  { text := some "once upon a time", source := some "src" }

/-! ## Helper lemmas -/

theorem writeAll_jsonl (fp : FilePair) (entries : List DataEntry) :
    (entries.foldl writeEntry fp).jsonl = fp.jsonl ++ entries := by
  induction entries generalizing fp with
  | nil => simp
  | cons e rest ih => simp [List.foldl_cons, ih, writeEntry]

theorem writeAll_txt_len (fp : FilePair) (entries : List DataEntry) :
    (entries.foldl writeEntry fp).txt.length = fp.txt.length + 3 * entries.length := by
  induction entries generalizing fp with
  | nil => simp
  | cons e rest ih =>
    simp [List.foldl_cons, ih, writeEntry]
    omega

theorem emptyFilePair_if (ov : Bool) :
    (if ov then ({} : FilePair) else {}) = {} := by
  cases ov <;> rfl

theorem wpText_ne_empty (a c : String) : a ++ "\n\n" ++ c ≠ "" := by
  intro h
  have hl : (a ++ "\n\n" ++ c).length = 0 := by rw [h]; rfl
  rw [String.length_append, String.length_append] at hl
  have h2 : ("\n\n" : String).length = 2 := rfl
  omega

theorem addId_wpRawEntry (b : WordpressBlog) (u : String) (item : FeedItem) :
    addId (wpRawEntry b u item) =
      .ok { wpRawEntry b u item with
            id := some (md5Hex (item.title ++ "\n\n" ++ b.clean item.contentValue)) } := by
  simp [addId, wpRawEntry, wpText_ne_empty]

theorem wpEntry_eq (b : WordpressBlog) (u : String) (item : FeedItem) :
    wpEntry b u item =
      { wpRawEntry b u item with
        id := some (md5Hex (item.title ++ "\n\n" ++ b.clean item.contentValue)) } := by
  rw [wpEntry, addId_wpRawEntry]

theorem mem_fetchEntriesFrom (b : WordpressBlog) (parse : String → ParsedPage)
    (pagedUrls : List String) (lastTitle : String) (e : DataEntry)
    (he : e ∈ fetchEntriesFrom b parse pagedUrls lastTitle) :
    ∃ u item, u ∈ pagedUrls ∧ item ∈ (parse u).entries ∧ e = wpEntry b u item := by
  induction pagedUrls generalizing lastTitle with
  | nil => simp [fetchEntriesFrom] at he
  | cons u rest ih =>
    rw [fetchEntriesFrom] at he
    cases hf : (parse u).feed with
    | none => rw [hf] at he; simp at he
    | some f =>
      rw [hf] at he
      dsimp only at he
      cases ht : f.title with
      | none => rw [ht] at he; simp at he
      | some t =>
        rw [ht] at he
        dsimp only at he
        by_cases hlt : t = lastTitle
        · rw [if_pos hlt] at he; simp at he
        · rw [if_neg hlt] at he
          rcases List.mem_append.mp he with hmap | hrest
          · rcases List.mem_map.mp hmap with ⟨item, hitem, hei⟩
            exact ⟨u, item, List.mem_cons_self u rest, hitem, hei.symm⟩
          · rcases ih t hrest with ⟨u2, item, hu2, hitem, hei⟩
            exact ⟨u2, item, List.mem_cons_of_mem u hu2, hitem, hei⟩

/-! ## Claim theorems -/

/-- C3: writer round-trip. Writing a list of entries through a fresh writer
session yields a jsonl file holding exactly those entries in order, and a
text file of exactly three lines per entry, so the two files stay in
lockstep. -/
theorem writer_round_trip (entries : List DataEntry) (ov : Bool) :
    (writerSession ov {} entries).jsonl = entries ∧
    (writerSession ov {} entries).txt.length = 3 * entries.length ∧
    (writerSession ov {} entries).txt.length =
      3 * (writerSession ov {} entries).jsonl.length := by
  rw [writerSession, emptyFilePair_if]
  refine ⟨writeAll_jsonl {} entries, ?_, ?_⟩ <;>
    simp [writeAll_txt_len, writeAll_jsonl]

/-- C4: writer mode semantics. Writing the same entries again in a second
session leaves the concatenation of both sessions in append mode (2N
entries), and only the second session's entries in overwrite mode (N
entries). -/
theorem writer_append_vs_overwrite (entries : List DataEntry) (ov : Bool) :
    (writerSession false (writerSession ov {} entries) entries).jsonl =
      entries ++ entries ∧
    (writerSession false (writerSession ov {} entries) entries).jsonl.length =
      2 * entries.length ∧
    (writerSession true (writerSession ov {} entries) entries).jsonl = entries ∧
    (writerSession true (writerSession ov {} entries) entries).jsonl.length =
      entries.length := by
  simp only [writerSession, emptyFilePair_if, if_neg Bool.false_ne_true,
    if_pos rfl]
  refine ⟨?_, ?_, ?_, ?_⟩ <;>
    simp [writeAll_jsonl]
  omega

/-- C1 counterexample: entry identity is not a function of the lowercased
text. The texts "once upon a time" and "Once upon a time" differ only in
letter case yet `add_id` assigns them different ids, and `verify_id` rejects
the id computed from the lowercased text (here the golden digest
`ea36fcd25d96821e1455adec6e5d9a3a` of "once upon a time") when the stored
text is "Once upon a time" — exactly as the repository's test
`test_data_entry_verify_id_fails` demands. -/
theorem addId_not_lowercase_counterexample :
    ¬ ((addId { text := some "once upon a time" }).toOption.map DataEntry.id =
       (addId { text := some "Once upon a time" }).toOption.map DataEntry.id) ∧
    verifyId { text := some "Once upon a time",
               id := some "ea36fcd25d96821e1455adec6e5d9a3a" } =
      .error "Entry id does not match text" := by
  constructor
  · decide
  · rfl

/-- C1 (amended): entry identity is a pure function of the exact text (no
case normalisation): `add_id` sets `id = md5(text)`, so two entries with
equal text get the same id, and `verify_id` accepts an id computed from the
text as stored. -/
theorem addId_pure_function_of_text (e1 e2 : DataEntry) (t : String)
    (h1 : e1.text = some t) (h2 : e2.text = some t) (hne : t ≠ "") :
    addId e1 = .ok { e1 with id := some (md5Hex t) } ∧
    addId e2 = .ok { e2 with id := some (md5Hex t) } ∧
    verifyId { e1 with id := some (md5Hex t) } = .ok () := by
  refine ⟨?_, ?_, ?_⟩
  · simp [addId, h1, hne]
  · simp [addId, h2, hne]
  · simp [verifyId, h1, hne]

theorem addId_pure_function_of_text_witness :
    addId { text := some "once upon a time", source := some "src" } =
      .ok { ({ text := some "once upon a time", source := some "src" } : DataEntry) with
            id := some (md5Hex "once upon a time") } ∧
    addId { text := some "once upon a time", title := some "t" } =
      .ok { ({ text := some "once upon a time", title := some "t" } : DataEntry) with
            id := some (md5Hex "once upon a time") } ∧
    verifyId { ({ text := some "once upon a time", source := some "src" } : DataEntry) with
               id := some (md5Hex "once upon a time") } = .ok () :=
  addId_pure_function_of_text _ _ "once upon a time" rfl rfl (by decide)

/-- C5: validation errors carry the specified messages: `add_id` on missing,
`None` or empty text fails with "Entry is missing text"; `verify_id` on a
missing id fails with "Entry is missing id"; `verify_id` on a stored id that
differs from the recomputed hash of the (present, non-empty) text fails with
"Entry id does not match text". -/
theorem validation_error_messages (e : DataEntry) :
    ((e.text = none ∨ e.text = some "") →
      addId e = .error "Entry is missing text") ∧
    (e.id = none → verifyId e = .error "Entry is missing id") ∧
    (∀ t i, e.text = some t → t ≠ "" → e.id = some i → md5Hex t ≠ i →
      verifyId e = .error "Entry id does not match text") := by
  refine ⟨?_, ?_, ?_⟩
  · rintro (h | h) <;> simp [addId, h]
  · intro h; simp [verifyId, h]
  · intro t i ht hne hi hmm
    simp [verifyId, ht, hi, hne, hmm]

theorem validation_error_messages_witness :
    addId { title := some "x" } = .error "Entry is missing text" ∧
    verifyId { text := some "bla bla bla" } = .error "Entry is missing id" ∧
    verifyId { text := some "winter wonderland",
               id := some "ea36fcd25d96821e1455adec6e5d9a3a" } =
      .error "Entry id does not match text" :=
  ⟨(validation_error_messages _).1 (Or.inl rfl),
   (validation_error_messages _).2.1 rfl,
   (validation_error_messages _).2.2 "winter wonderland"
     "ea36fcd25d96821e1455adec6e5d9a3a" rfl (by decide) rfl (by decide)⟩

/-- C6: for every entry with present, non-empty text, `add_id` succeeds and
`verify_id` accepts the resulting entry: the id written by `add_id` always
satisfies the recomputation check of `verify_id`. -/
theorem addId_then_verifyId_ok (e : DataEntry) (t : String)
    (h : e.text = some t) (hne : t ≠ "") :
    ∃ r, addId e = .ok r ∧ verifyId r = .ok () := by
  refine ⟨{ e with id := some (md5Hex t) }, ?_, ?_⟩
  · simp [addId, h, hne]
  · simp [verifyId, h, hne]

theorem addId_then_verifyId_ok_witness :
    ∃ r, addId entryExample = .ok r ∧ verifyId r = .ok () :=
  addId_then_verifyId_ok entryExample "once upon a time" rfl (by decide)

theorem fetchEntriesFrom_cons_continue (b : WordpressBlog)
    (parse : String → ParsedPage) (u : String) (rest : List String)
    (lastTitle : String) (f : Feed) (t : String)
    (hf : (parse u).feed = some f) (ht : f.title = some t)
    (hne : t ≠ lastTitle) :
    fetchEntriesFrom b parse (u :: rest) lastTitle =
      (parse u).entries.map (wpEntry b u) ++ fetchEntriesFrom b parse rest t := by
  rw [fetchEntriesFrom, hf]
  dsimp only
  rw [ht]
  dsimp only
  rw [if_neg hne]

theorem fetchEntriesFrom_cons_stop (b : WordpressBlog)
    (parse : String → ParsedPage) (u : String) (rest : List String)
    (lastTitle : String)
    (h : (parse u).feed = none ∨
         (∃ f, (parse u).feed = some f ∧ f.title = none) ∨
         (∃ f, (parse u).feed = some f ∧ f.title = some lastTitle)) :
    fetchEntriesFrom b parse (u :: rest) lastTitle = [] := by
  rcases h with hf | ⟨f, hf, ht⟩ | ⟨f, hf, ht⟩
  · rw [fetchEntriesFrom, hf]
  · rw [fetchEntriesFrom, hf]
    dsimp only
    rw [ht]
  · rw [fetchEntriesFrom, hf]
    dsimp only
    rw [ht]
    dsimp only
    rw [if_pos rfl]

/-- C2: the pagination loop stops cleanly, yielding no further entries, at
the first page whose parse result lacks feed metadata, lacks a title, or
repeats the previous page's title; when page 3 repeats page 2's title,
exactly pages 1 and 2 contribute entries; a page with zero items but a fresh
title does not stop iteration. -/
theorem fetch_pagination_stops (b : WordpressBlog)
    (parse : String → ParsedPage) :
    (∀ u rest lastTitle,
      ((parse u).feed = none ∨
       (∃ f, (parse u).feed = some f ∧ f.title = none) ∨
       (∃ f, (parse u).feed = some f ∧ f.title = some lastTitle)) →
      fetchEntriesFrom b parse (u :: rest) lastTitle = []) ∧
    (∀ u1 u2 u3 rest f1 f2 f3 t1 t2,
      (parse u1).feed = some f1 → f1.title = some t1 → t1 ≠ "" →
      (parse u2).feed = some f2 → f2.title = some t2 → t2 ≠ t1 →
      (parse u3).feed = some f3 → f3.title = some t2 →
      fetchEntries b parse (u1 :: u2 :: u3 :: rest) =
        (parse u1).entries.map (wpEntry b u1) ++
          (parse u2).entries.map (wpEntry b u2)) ∧
    (∀ u rest lastTitle f t,
      (parse u).feed = some f → f.title = some t → t ≠ lastTitle →
      (parse u).entries = [] →
      fetchEntriesFrom b parse (u :: rest) lastTitle =
        fetchEntriesFrom b parse rest t) := by
  refine ⟨fun u rest lastTitle h => fetchEntriesFrom_cons_stop b parse u rest lastTitle h,
    ?_, ?_⟩
  · intro u1 u2 u3 rest f1 f2 f3 t1 t2 hf1 ht1 hne1 hf2 ht2 hne2 hf3 ht3
    rw [fetchEntries,
      fetchEntriesFrom_cons_continue b parse u1 _ _ f1 t1 hf1 ht1 hne1,
      fetchEntriesFrom_cons_continue b parse u2 _ _ f2 t2 hf2 ht2 hne2,
      fetchEntriesFrom_cons_stop b parse u3 rest t2 (Or.inr (Or.inr ⟨f3, hf3, ht3⟩)),
      List.append_nil]
  · intro u rest lastTitle f t hf ht hne hent
    rw [fetchEntriesFrom_cons_continue b parse u rest lastTitle f t hf ht hne,
      hent]
    simp

theorem fetch_pagination_stops_witness :
    fetchEntriesFrom wbExample parseExample ["nofeed", "p1"] "x" = [] ∧
    fetchEntriesFrom wbExample parseExample ["notitle", "p1"] "x" = [] ∧
    fetchEntriesFrom wbExample parseExample ["p3", "p1"] "Title two" = [] ∧
    fetchEntries wbExample parseExample ["p1", "p2", "p3", "p1"] =
      (parseExample "p1").entries.map (wpEntry wbExample "p1") ++
        (parseExample "p2").entries.map (wpEntry wbExample "p2") ∧
    fetchEntriesFrom wbExample parseExample ["empty", "p1"] "Title one" =
      fetchEntriesFrom wbExample parseExample ["p1"] "Fresh title" :=
  ⟨(fetch_pagination_stops wbExample parseExample).1 "nofeed" _ _ (Or.inl rfl),
   (fetch_pagination_stops wbExample parseExample).1 "notitle" _ _
     (Or.inr (Or.inl ⟨{}, rfl, rfl⟩)),
   (fetch_pagination_stops wbExample parseExample).1 "p3" _ _
     (Or.inr (Or.inr ⟨{ title := some "Title two" }, rfl, rfl⟩)),
   (fetch_pagination_stops wbExample parseExample).2.1 "p1" "p2" "p3" ["p1"]
     { title := some "Title one" } { title := some "Title two" }
     { title := some "Title two" } "Title one" "Title two"
     rfl rfl (by decide) rfl rfl (by decide) rfl rfl,
   (fetch_pagination_stops wbExample parseExample).2.2 "empty" ["p1"]
     "Title one" { title := some "Fresh title" } "Fresh title"
     rfl rfl (by decide) rfl⟩

/-- C7: every entry emitted by `fetch_entries` has text equal to the item
title, a blank line, and the cleaned body; url equal to the feed's logical
URL (not the paged URL); title equal to the first line of the text; source
equal to the slug derived from the URL; date_published equal to the "n/a"
sentinel; and paged_url equal to the page URL actually fetched. -/
theorem fetch_entry_fields (b : WordpressBlog) (parse : String → ParsedPage)
    (pagedUrls : List String) (lastTitle : String) (e : DataEntry)
    (he : e ∈ fetchEntriesFrom b parse pagedUrls lastTitle) :
    ∃ (pagedUrl : String) (item : FeedItem), pagedUrl ∈ pagedUrls ∧
      e.text = some (item.title ++ "\n\n" ++ b.clean item.contentValue) ∧
      e.url = some b.url ∧
      e.title = some (firstLine (item.title ++ "\n\n" ++ b.clean item.contentValue)) ∧
      e.source = some b.name ∧
      e.date_published = some "n/a" ∧
      e.paged_url = some pagedUrl := by
  rcases mem_fetchEntriesFrom b parse pagedUrls lastTitle e he with
    ⟨u, item, hu, hitem, hei⟩
  subst hei
  refine ⟨u, item, hu, ?_, ?_, ?_, ?_, ?_, ?_⟩ <;>
    simp [wpEntry_eq, wpRawEntry]

theorem fetch_entry_fields_witness :
    ∃ (pagedUrl : String) (item : FeedItem), pagedUrl ∈ ["p1"] ∧
      (wpEntry wbExample "p1" itemExample).text =
        some (item.title ++ "\n\n" ++ wbExample.clean item.contentValue) ∧
      (wpEntry wbExample "p1" itemExample).url = some wbExample.url ∧
      (wpEntry wbExample "p1" itemExample).title =
        some (firstLine (item.title ++ "\n\n" ++ wbExample.clean item.contentValue)) ∧
      (wpEntry wbExample "p1" itemExample).source = some wbExample.name ∧
      (wpEntry wbExample "p1" itemExample).date_published = some "n/a" ∧
      (wpEntry wbExample "p1" itemExample).paged_url = some pagedUrl :=
  fetch_entry_fields wbExample parseExample ["p1"] ""
    (wpEntry wbExample "p1" itemExample) (by decide)

/-- C8: `items_list` is exactly the `max_pages` paginated feed URLs
`{feed_url}?paged=N` for `N = 1 .. max_pages` in increasing order, and
`max_pages` defaults to 2000. -/
theorem itemsList_spec (b : WordpressBlog) :
    b.itemsList.length = b.max_pages ∧
    (∀ i, i < b.max_pages →
      b.itemsList[i]? = some (b.feedUrl ++ "?paged=" ++ toString (i + 1))) ∧
    (∀ (u : String) (cl : String → String) (nm : String),
      ({ url := u, clean := cl, name := nm } : WordpressBlog).max_pages = 2000) := by
  refine ⟨by simp [WordpressBlog.itemsList], ?_, fun u cl nm => rfl⟩
  intro i hi
  simp [WordpressBlog.itemsList, List.getElem?_map, List.getElem?_range, hi]

theorem itemsList_spec_witness :
    wbExample.itemsList.length = wbExample.max_pages ∧
    wbExample.itemsList[5]? =
      some (wbExample.feedUrl ++ "?paged=" ++ toString (5 + 1)) ∧
    ({ url := "u", clean := fun s => s, name := "n" } : WordpressBlog).max_pages = 2000 :=
  ⟨(itemsList_spec wbExample).1,
   (itemsList_spec wbExample).2.1 5 (by decide),
   (itemsList_spec wbExample).2.2 "u" (fun s => s) "n"⟩

/-- C9: the text built for every item contains the title/body separator and
is therefore non-empty, so the missing-text assertion inside `add_id` is
unreachable on this path, and every yielded entry carries an id equal to the
content hash of its own text. -/
theorem fetch_entries_text_nonempty_id (b : WordpressBlog)
    (parse : String → ParsedPage) (pagedUrls : List String) (lastTitle : String) :
    (∀ (u : String) (item : FeedItem),
      addId (wpRawEntry b u item) =
        .ok { wpRawEntry b u item with
              id := some (md5Hex (item.title ++ "\n\n" ++ b.clean item.contentValue)) }) ∧
    (∀ e ∈ fetchEntriesFrom b parse pagedUrls lastTitle,
      ∃ t, e.text = some t ∧ t ≠ "" ∧ e.id = some (md5Hex t)) := by
  refine ⟨addId_wpRawEntry b, ?_⟩
  intro e he
  rcases mem_fetchEntriesFrom b parse pagedUrls lastTitle e he with
    ⟨u, item, hu, hitem, hei⟩
  subst hei
  exact ⟨item.title ++ "\n\n" ++ b.clean item.contentValue,
    by simp [wpEntry_eq, wpRawEntry], wpText_ne_empty _ _,
    by simp [wpEntry_eq, wpRawEntry]⟩

theorem fetch_entries_text_nonempty_id_witness :
    (addId (wpRawEntry wbExample "p1" itemExample) =
      .ok { wpRawEntry wbExample "p1" itemExample with
            id := some (md5Hex (itemExample.title ++ "\n\n" ++
              wbExample.clean itemExample.contentValue)) }) ∧
    (∃ t, (wpEntry wbExample "p1" itemExample).text = some t ∧ t ≠ "" ∧
      (wpEntry wbExample "p1" itemExample).id = some (md5Hex t)) :=
  ⟨(fetch_entries_text_nonempty_id wbExample parseExample ["p1"] "").1
     "p1" itemExample,
   (fetch_entries_text_nonempty_id wbExample parseExample ["p1"] "").2
     (wpEntry wbExample "p1" itemExample) (by decide)⟩

/-- C10: because `last_title` starts as the empty string and the loop stops
when a page's feed title equals `last_title`, a run whose first page has the
empty string as feed title terminates immediately and yields no entries. -/
theorem empty_first_title_yields_nothing (b : WordpressBlog)
    (parse : String → ParsedPage) (u : String) (rest : List String) (f : Feed)
    (hf : (parse u).feed = some f) (ht : f.title = some "") :
    fetchEntries b parse (u :: rest) = [] := by
  rw [fetchEntries]
  exact fetchEntriesFrom_cons_stop b parse u rest ""
    (Or.inr (Or.inr ⟨f, hf, ht⟩))

theorem empty_first_title_yields_nothing_witness :
    fetchEntries wbExample parseExample ["emptytitle", "p1"] = [] :=
  empty_first_title_yields_nothing wbExample parseExample "emptytitle" ["p1"]
    { title := some "" } rfl rfl

